import Mathlib

/-!
Verification of the apigen code-generation templates.

The repository's core is two emitter templates:
  * `src/apigen/templates/struct.rs` — renders one Rust data structure from a
    struct entry of the Type Model;
  * `src/apigen/templates/error.rs` — renders one Rust error enumeration,
    its `Display` implementation and its `ResponseError::status_code`
    HTTP-status mapping;
plus a hand-written example server `src/examples/helloworld/src/server.rs`.

This file embeds the Type Model, the two emitters (both structurally, as the
shape of the artifact they emit, and textually, as the rendered source text),
the serde wire contract of the emitted structs, and the example's
`hello_user` handler, and proves the specification's testable properties
about them.
-/

/-- `PropertySpec`: one property of a struct entry of the Type Model —
title, declared type (opaque string reference), optional documentation.
These are the fields `prop.title`, `prop.type`, `prop.doc` consumed by
`src/apigen/templates/struct.rs`. -/
structure PropertySpec where
  title : String
  type : String
  doc : Option String := none
  deriving Repr, DecidableEq

/-- `StructSpec`: one struct entry of the Type Model — title, optional
documentation, ordered properties. These are the fields `title`, `doc`,
`props` consumed by `src/apigen/templates/struct.rs`. -/
structure StructSpec where
  title : String
  doc : Option String := none
  props : List PropertySpec
  deriving Repr, DecidableEq

/-- `ErrorVariant`: one variant of an error entry of the Type Model —
`detail` (human-readable description) and `code_name` (symbol naming one
HTTP status code). These are the fields `variant.detail`,
`variant.code_name` consumed by `src/apigen/templates/error.rs`. -/
structure ErrorVariant where
  detail : String
  code_name : String
  deriving Repr, DecidableEq

/-- `ErrorSpec`: one error entry of the Type Model — the enumeration's
identifier `error_type` and the ordered sequence `variants`, as consumed by
`src/apigen/templates/error.rs`. -/
structure ErrorSpec where
  error_type : String
  variants : List ErrorVariant
  deriving Repr, DecidableEq

/-- Uppercase the first character of a word (kept as a character list so
that all evaluation is by structural recursion). -/
def capitalizeWord : List Char → List Char
  | [] => []
  | c :: cs => c.toUpper :: cs

/-- Split a character list into words at spaces. -/
def splitWordsAux : List Char → List Char → List (List Char)
  | [], acc => [acc.reverse]
  | c :: cs, acc =>
    if c = ' ' then acc.reverse :: splitWordsAux cs []
    else splitWordsAux cs (c :: acc)

/-- Modelled from the spec: the templating engine's `to_camel_case` filter
applied in `src/apigen/templates/error.rs` is not part of the given source;
per the spec, a variant's identifier is "the title-cased form of its
`detail` string", e.g. `"user not found"` becomes `"UserNotFound"`: split
into words at spaces, capitalize each word, concatenate. -/
def toCamelCase (s : String) : String :=
  String.mk (((splitWordsAux s.toList []).map capitalizeWord).flatten)

/-- Modelled from the spec: the Naming Resolver's case conversion of a
property title to a field identifier is not part of the given source (the
struct template receives already-usable titles); per the spec it is a
deterministic case conversion, modelled here as snake-casing (lowercase,
spaces to underscores). -/
def toSnakeCase (s : String) : String :=
  String.mk (s.toList.map (fun c => if c = ' ' then '_' else c.toLower))

/-- A variant declaration of the emitted enumeration.  The template emits
each variant as a bare identifier (`src/apigen/templates/error.rs` line 5:
`{{ variant.detail | to_camel_case }},`), so `payloadTypes` — the list of
payload types the declaration carries — is always empty for this emitter. -/
structure EnumVariantDecl where
  name : String
  payloadTypes : List String
  deriving Repr, DecidableEq

/-- One arm of an emitted `match`: the variant identifier matched (`pat`)
and the emitted right-hand side text (`rhs`): for the `Display` match the
string written, for the status-mapping match the status-code name. -/
structure MatchArm where
  pat : String
  rhs : String
  deriving Repr, DecidableEq

/-- The shape of the artifact emitted by `src/apigen/templates/error.rs`:
the derive list (line 2), the enumeration name and variant declarations
(lines 3–7), the `Display` match arms (lines 11–17) and the
`ResponseError::status_code` match arms (lines 25–29). -/
structure ErrorArtifact where
  derives : List String
  enumName : String
  enumVariants : List EnumVariantDecl
  displayArms : List MatchArm
  statusArms : List MatchArm
  deriving Repr, DecidableEq

/-- The Error Emitter, structurally: `src/apigen/templates/error.rs`.
Line 2 fixes the derive list `Debug, Serialize, Deserialize, Clone`; lines
4–6 emit one payload-free variant named `to_camel_case(detail)` per
variant; lines 12–16 emit one `Display` arm per variant writing the
variant's `detail` verbatim; lines 26–28 emit one status arm per variant
naming `StatusCode::{code_name}`.  All three sequences iterate the same
`variants` list in order. -/
def emitError (spec : ErrorSpec) : ErrorArtifact :=
  { derives := ["Debug", "Serialize", "Deserialize", "Clone"]
    enumName := spec.error_type
    enumVariants := spec.variants.map (fun v => ⟨toCamelCase v.detail, []⟩)
    displayArms := spec.variants.map (fun v => ⟨toCamelCase v.detail, v.detail⟩)
    statusArms := spec.variants.map (fun v => ⟨toCamelCase v.detail, v.code_name⟩) }

/-- One field of the emitted struct: the in-memory field identifier, the
optional `#[serde(rename = ...)]` wire name carried by an annotation, and
the declared type. -/
structure FieldDecl where
  name : String
  rename : Option String
  type : String
  deriving Repr, DecidableEq

/-- The wire-visible name of a field: the rename-annotation value when the
field carries one, otherwise the field name itself (serde's rule). -/
def wireName (f : FieldDecl) : String :=
  f.rename.getD f.name

/-- One property's emitted field, `src/apigen/templates/struct.rs` lines
14–19: a property titled exactly `match` becomes field `match_` with
`#[serde(rename = "match")]`; every other title is emitted verbatim as the
field name with no rename annotation. -/
def emitField (p : PropertySpec) : FieldDecl :=
  if p.title = "match" then ⟨"match_", some "match", p.type⟩
  else ⟨p.title, none, p.type⟩

/-- The shape of the artifact emitted by `src/apigen/templates/struct.rs`:
derive list (line 6), struct name (line 7), fields (lines 8–20). -/
structure StructArtifact where
  derives : List String
  name : String
  fields : List FieldDecl
  deriving Repr, DecidableEq

/-- The Struct Emitter, structurally: `src/apigen/templates/struct.rs`.
Line 6 fixes the derive list `Serialize, Deserialize, Clone, PartialEq`;
the loop of lines 8–20 emits one field per property in order via
`emitField`. -/
def emitStruct (s : StructSpec) : StructArtifact :=
  { derives := ["Serialize", "Deserialize", "Clone", "PartialEq"]
    name := s.title
    fields := s.props.map emitField }

/-- Modelled from the spec: the wire-format contract of emitted structs —
"JSON-object serialization keyed by field name", except that a renamed
field serializes under its annotation's wire key.  A value of the emitted
struct is its ordered list of field values (one opaque value per field);
serializing it yields the object's key-value pairs, wire name first. -/
def serializeValue (fields : List FieldDecl) (vals : List String) : List (String × String) :=
  (fields.zip vals).map (fun fv => (wireName fv.1, fv.2))

/-- Modelled from the spec: deserialization of the emitted struct — each
field's value is looked up in the object under the field's wire name; the
whole value deserializes only when every field is present. -/
def deserializeValue (fields : List FieldDecl) (obj : List (String × String)) : Option (List String) :=
  match fields with
  | [] => some []
  | f :: fs =>
    match obj.lookup (wireName f), deserializeValue fs obj with
    | some v, some vs => some (v :: vs)
    | _, _ => none

/-- Modelled from the spec: the generation-time error taxonomy's
`NamingCollision` — "two model entries resolve to the same identifier —
fatal, aborts generation with the offending names". -/
inductive GenError where
  | namingCollision (a b : String) : GenError
  deriving Repr, DecidableEq

/-- Find the first pair of entries of `l` that `f` sends to the same
identifier, returning the offending pair. -/
def findCollisionBy (f : String → String) : List String → Option (String × String)
  | [] => none
  | t :: ts =>
    match ts.find? (fun u => f u == f t) with
    | some u => some (t, u)
    | none => findCollisionBy f ts

/-- Modelled from the spec: the generation pipeline around the Struct
Emitter — the Naming Resolver "signals a naming-collision error when two
distinct inputs in the same scope resolve to the same identifier"; only
when no two property titles collide is the template rendered. -/
def genStructChecked (s : StructSpec) : Except GenError StructArtifact :=
  match findCollisionBy toSnakeCase (s.props.map (fun p => p.title)) with
  | some (a, b) => Except.error (GenError.namingCollision a b)
  | none => Except.ok (emitStruct s)

/-- Modelled from the spec: the generation pipeline around the Error
Emitter — "no two variants may collapse to the same identifier" after case
conversion; only when no two variant details collide is the template
rendered. -/
def genErrorChecked (spec : ErrorSpec) : Except GenError ErrorArtifact :=
  match findCollisionBy toCamelCase (spec.variants.map (fun v => v.detail)) with
  | some (a, b) => Except.error (GenError.namingCollision a b)
  | none => Except.ok (emitError spec)

/-- Documentation lines, `src/apigen/templates/struct.rs` lines 1–5 and
9–13: each line of the optional doc string is emitted verbatim and
independently as a `///` comment at the given indentation. -/
def renderDocLines (indent : String) (doc : Option String) : String :=
  match doc with
  | none => ""
  | some d => String.join ((d.splitOn "\n").map (fun line => indent ++ "/// " ++ line ++ "\n"))

/-- One property's emitted text, `src/apigen/templates/struct.rs` lines
9–19. -/
def renderProp (p : PropertySpec) : String :=
  renderDocLines "    " p.doc ++
  (if p.title = "match" then
    "    #[serde(rename = \"match\")]\n    pub match_: " ++ p.type ++ ",\n"
  else
    "    pub " ++ p.title ++ ": " ++ p.type ++ ",\n")

/-- The Struct Emitter, textually: the source text rendered by
`src/apigen/templates/struct.rs` (literal braces written as escapes). -/
def renderStructText (s : StructSpec) : String :=
  renderDocLines "" s.doc ++
  "#[derive(Serialize, Deserialize, Clone, PartialEq)]\n" ++
  "pub struct " ++ s.title ++ " \x7b\n" ++
  String.join (s.props.map renderProp) ++
  "\x7d\n"

/-- The Error Emitter, textually: the source text rendered by
`src/apigen/templates/error.rs` (literal braces and the lifetime tick
written as escapes). -/
def renderErrorText (spec : ErrorSpec) : String :=
  "// Custom error\n" ++
  "#[derive(Debug, Serialize, Deserialize, Clone)]\n" ++
  "pub enum " ++ spec.error_type ++ " \x7b\n" ++
  String.join (spec.variants.map (fun v => "    " ++ toCamelCase v.detail ++ ",\n")) ++
  "\x7d\n\n" ++
  "impl Display for " ++ spec.error_type ++ " \x7b\n" ++
  "    fn fmt(&self, f: &mut std::fmt::Formatter<\x27_>) -> std::fmt::Result \x7b\n" ++
  "        match self \x7b\n" ++
  String.join (spec.variants.map (fun v =>
    "            " ++ spec.error_type ++ "::" ++ toCamelCase v.detail ++ " => \x7b\n" ++
    "                write!(f, \"" ++ v.detail ++ "\")\n" ++
    "            \x7d,\n")) ++
  "        \x7d\n" ++
  "    \x7d\n" ++
  "\x7d\n\n" ++
  "impl std::error::Error for " ++ spec.error_type ++ " \x7b\x7d\n\n" ++
  "impl ResponseError for " ++ spec.error_type ++ " \x7b\n" ++
  "    fn status_code(&self) -> StatusCode \x7b\n" ++
  "        match self \x7b\n" ++
  String.join (spec.variants.map (fun v =>
    "            " ++ spec.error_type ++ "::" ++ toCamelCase v.detail ++ " => StatusCode::" ++
    v.code_name ++ ",\n")) ++
  "        \x7d\n" ++
  "    \x7d\n" ++
  "\x7d\n"

/-- Modelled from the spec: reserved identifiers of the target language
(Rust keywords).  The spec's escape rule is claimed to apply to any member
of this set; the source names no table, so a representative list of Rust
keywords is fixed here. -/
def reservedIdents : List String :=
  ["as", "break", "const", "continue", "crate", "else", "enum", "fn", "for",
   "if", "impl", "in", "let", "loop", "match", "mod", "move", "mut", "pub",
   "ref", "return", "self", "static", "struct", "super", "trait", "true",
   "type", "use", "where", "while"]

/-- Modelled from the spec: the generated `HelloUserError` enumeration of
the helloworld example's `api` module, which is generated output not under
`src/`; its variants are irrelevant to the handler, which never returns an
error. -/
inductive HelloUserError where
  deriving Repr

/-- Modelled from the spec: `Detailed<E>` — "a thin wrapper that pairs the
error enumeration value with enough context (minimally, itself)". -/
structure Detailed (E : Type) where
  err : E

/-- `HelloUserPath`: the path-parameter structure of the helloworld
example, emitted by the Struct Emitter from the scenario's StructSpec; one
field `user`. -/
structure HelloUserPath where
  user : String
  deriving Repr, DecidableEq

/-- The example handler `hello_user`, `src/examples/helloworld/src/server.rs`
lines 17–22: given the shared state and the extracted path value, it
returns `Ok(format!("Hello, {}", path.user))`. -/
def helloUser {S : Type} (_data : S) (path : HelloUserPath) :
    Except (Detailed HelloUserError) String :=
  Except.ok ("Hello, " ++ path.user)

theorem lookup_cons_self (k v : String) (obj : List (String × String)) :
    ((k, v) :: obj).lookup k = some v := by
  simp [List.lookup]

theorem lookup_cons_ne (k v : String) (obj : List (String × String)) (a : String)
    (h : k ≠ a) : ((k, v) :: obj).lookup a = obj.lookup a := by
  have hb : (a == k) = false := beq_eq_false_iff_ne.mpr (Ne.symm h)
  simp [List.lookup, hb]

theorem deserializeValue_skip (fs : List FieldDecl) (k v : String)
    (obj : List (String × String)) (h : ∀ f ∈ fs, wireName f ≠ k) :
    deserializeValue fs ((k, v) :: obj) = deserializeValue fs obj := by
  induction fs with
  | nil => rfl
  | cons f fs ih =>
    have h1 : wireName f ≠ k := h f (by simp)
    have h2 : ∀ g ∈ fs, wireName g ≠ k := fun g hg => h g (by simp [hg])
    simp only [deserializeValue, lookup_cons_ne k v obj (wireName f) (Ne.symm h1), ih h2]

theorem deserialize_serialize (fields : List FieldDecl) (vals : List String)
    (hnd : (fields.map wireName).Nodup) (hlen : vals.length = fields.length) :
    deserializeValue fields (serializeValue fields vals) = some vals := by
  induction fields generalizing vals with
  | nil =>
    cases vals with
    | nil => rfl
    | cons v vs => simp at hlen
  | cons f fs ih =>
    cases vals with
    | nil => simp at hlen
    | cons v vs =>
      have hlen2 : vs.length = fs.length := by simpa using hlen
      have hcons : (∀ g ∈ fs, ¬ wireName g = wireName f) ∧ (fs.map wireName).Nodup := by
        simpa using hnd
      have hne : ∀ g ∈ fs, wireName g ≠ wireName f := hcons.1
      have hser : serializeValue (f :: fs) (v :: vs) =
          (wireName f, v) :: serializeValue fs vs := by
        simp [serializeValue]
      rw [hser]
      simp only [deserializeValue, lookup_cons_self,
        deserializeValue_skip fs (wireName f) v _ hne, ih vs hcons.2 hlen2]

theorem findCollisionBy_none_pairwise (f : String → String) (l : List String)
    (h : findCollisionBy f l = none) : l.Pairwise (fun a b => f a ≠ f b) := by
  induction l with
  | nil => exact List.Pairwise.nil
  | cons t ts ih =>
    simp only [findCollisionBy] at h
    cases hf : ts.find? (fun u => f u == f t) with
    | some u => rw [hf] at h; simp at h
    | none =>
      rw [hf] at h
      refine List.Pairwise.cons ?_ (ih h)
      intro b hb
      have hne : ¬ ((f b == f t) = true) := List.find?_eq_none.mp hf b hb
      have : f b ≠ f t := by simpa [beq_iff_eq] using hne
      exact Ne.symm this

theorem findCollisionBy_some_spec (f : String → String) (l : List String) (a b : String)
    (h : findCollisionBy f l = some (a, b)) : a ∈ l ∧ b ∈ l ∧ f b = f a := by
  induction l with
  | nil => simp [findCollisionBy] at h
  | cons t ts ih =>
    simp only [findCollisionBy] at h
    cases hf : ts.find? (fun u => f u == f t) with
    | some u =>
      rw [hf] at h
      have hta : t = a ∧ u = b := by simpa using h
      have hmem : u ∈ ts := List.mem_of_find?_eq_some hf
      have hp := List.find?_some hf
      refine ⟨?_, ?_, ?_⟩
      · rw [← hta.1]; simp
      · rw [← hta.2]; simp [hmem]
      · rw [← hta.1, ← hta.2]; simpa [beq_iff_eq] using hp
    | none =>
      rw [hf] at h
      obtain ⟨ha, hb2, hfb⟩ := ih h
      exact ⟨by simp [ha], by simp [hb2], hfb⟩

/-- C1: for every ErrorVariant of an ErrorSpec, the emitted error artifact
gives the variant the identifier `toCamelCase detail`, its Display arm
writes exactly the original `detail` string verbatim (not the
identifier-cased form), and its status-mapping arm resolves the variant to
the status code named by `code_name`. -/
theorem c1_error_variant_emission (spec : ErrorSpec) (i : Nat)
    (hi : i < spec.variants.length) :
    (emitError spec).enumVariants[i]? =
      some ⟨toCamelCase (spec.variants.get ⟨i, hi⟩).detail, []⟩ ∧
    (emitError spec).displayArms[i]? =
      some ⟨toCamelCase (spec.variants.get ⟨i, hi⟩).detail,
            (spec.variants.get ⟨i, hi⟩).detail⟩ ∧
    (emitError spec).statusArms[i]? =
      some ⟨toCamelCase (spec.variants.get ⟨i, hi⟩).detail,
            (spec.variants.get ⟨i, hi⟩).code_name⟩ := by
  refine ⟨?_, ?_, ?_⟩ <;>
    simp [emitError, List.getElem?_map, List.getElem?_eq_getElem hi, List.get_eq_getElem]

/-- Witness for C1 at the spec's own example variant
`{detail: "user not found", code_name: "NOT_FOUND"}`. -/
theorem c1_error_variant_emission_witness :
    (emitError ⟨"ApiError", [⟨"user not found", "NOT_FOUND"⟩]⟩).enumVariants[0]? =
      some ⟨"UserNotFound", []⟩ ∧
    (emitError ⟨"ApiError", [⟨"user not found", "NOT_FOUND"⟩]⟩).displayArms[0]? =
      some ⟨"UserNotFound", "user not found"⟩ ∧
    (emitError ⟨"ApiError", [⟨"user not found", "NOT_FOUND"⟩]⟩).statusArms[0]? =
      some ⟨"UserNotFound", "NOT_FOUND"⟩ :=
  c1_error_variant_emission ⟨"ApiError", [⟨"user not found", "NOT_FOUND"⟩]⟩ 0
    (by decide)

/-- C2: for every ErrorSpec with N variants, the Display match and the
status-mapping match each contain exactly N arms, one per variant in
declaration order, and both matches carry the same pattern sequence — a
variant can never appear in one match but not the other. -/
theorem c2_match_exhaustiveness (spec : ErrorSpec) :
    (emitError spec).displayArms.length = spec.variants.length ∧
    (emitError spec).statusArms.length = spec.variants.length ∧
    (emitError spec).displayArms.map MatchArm.pat =
      spec.variants.map (fun v => toCamelCase v.detail) ∧
    (emitError spec).statusArms.map MatchArm.pat =
      spec.variants.map (fun v => toCamelCase v.detail) := by
  refine ⟨?_, ?_, ?_, ?_⟩ <;> simp [emitError, List.map_map, Function.comp]

/-- Counterexample for C3: the error template's derive list
(`src/apigen/templates/error.rs` line 2) is `Debug, Serialize, Deserialize,
Clone` — the emitted enumeration is not comparable for equality (no
`PartialEq`/`Eq`). -/
theorem c3_no_partialeq_counterexample :
    "Clone" ∈ (emitError ⟨"ApiError", [⟨"user not found", "NOT_FOUND"⟩]⟩).derives ∧
    "Serialize" ∈ (emitError ⟨"ApiError", [⟨"user not found", "NOT_FOUND"⟩]⟩).derives ∧
    "PartialEq" ∉ (emitError ⟨"ApiError", [⟨"user not found", "NOT_FOUND"⟩]⟩).derives ∧
    "Eq" ∉ (emitError ⟨"ApiError", [⟨"user not found", "NOT_FOUND"⟩]⟩).derives := by
  decide

/-- C3 as amended: for every ErrorSpec the emitted enumeration is cloneable,
serializable and debug-printable — its derive list is exactly `Debug,
Serialize, Deserialize, Clone`, with no equality comparison — and each
variant carries no payload. -/
theorem c3_error_identity_amended (spec : ErrorSpec) :
    (emitError spec).derives = ["Debug", "Serialize", "Deserialize", "Clone"] ∧
    (emitError spec).enumVariants =
      spec.variants.map (fun v => ⟨toCamelCase v.detail, []⟩) :=
  ⟨rfl, rfl⟩

/-- Counterexample for C4: `type` is a reserved identifier of the target
language distinct from `match`, yet the emitted field for a property titled
`type` keeps the title verbatim as its field name and carries no rename
annotation — the escape-and-preserve pattern is not applied. -/
theorem c4_reserved_ident_counterexample :
    "type" ∈ reservedIdents ∧ "type" ≠ "match" ∧
    (emitStruct ⟨"S", none, [⟨"type", "u32", none⟩]⟩).fields =
      [⟨"type", none, "u32"⟩] := by
  decide

/-- C4 as amended: the escape-and-preserve pattern applies only to the
literal title `match` (`src/apigen/templates/struct.rs` line 14): that
property becomes field `match_` with a rename annotation preserving the
wire name `match`; a property with any other title — reserved identifier or
not — is emitted with its title verbatim as the field name and no rename
annotation. -/
theorem c4_escape_only_match (s : StructSpec) (p : PropertySpec) (hp : p ∈ s.props) :
    (p.title = "match" →
      (⟨"match_", some "match", p.type⟩ : FieldDecl) ∈ (emitStruct s).fields) ∧
    (p.title ≠ "match" →
      (⟨p.title, none, p.type⟩ : FieldDecl) ∈ (emitStruct s).fields) := by
  constructor
  · intro h
    have he : emitField p = ⟨"match_", some "match", p.type⟩ := by
      simp [emitField, h]
    exact he ▸ List.mem_map_of_mem emitField hp
  · intro h
    have he : emitField p = ⟨p.title, none, p.type⟩ := by
      simp [emitField, h]
    exact he ▸ List.mem_map_of_mem emitField hp

/-- Witness for C4 (amended) at a property titled with the reserved
identifier `type`. -/
theorem c4_escape_only_match_witness :
    (⟨"type", none, "u32"⟩ : FieldDecl) ∈
      (emitStruct ⟨"S", none, [⟨"type", "u32", none⟩]⟩).fields :=
  (c4_escape_only_match ⟨"S", none, [⟨"type", "u32", none⟩]⟩ ⟨"type", "u32", none⟩
    (by decide)).2 (by decide)

/-- C5: two distinct PropertySpecs of one StructSpec whose titles
case-convert to the same identifier make checked generation fail with
`NamingCollision`, reporting offending property titles; no struct artifact
is emitted. -/
theorem c5_naming_collision_aborts (s : StructSpec) (i j : Nat)
    (hi : i < s.props.length) (hj : j < s.props.length) (hij : i ≠ j)
    (hcol : toSnakeCase (s.props.get ⟨i, hi⟩).title =
            toSnakeCase (s.props.get ⟨j, hj⟩).title) :
    ∃ a b, a ∈ s.props.map PropertySpec.title ∧ b ∈ s.props.map PropertySpec.title ∧
      toSnakeCase b = toSnakeCase a ∧
      genStructChecked s = Except.error (GenError.namingCollision a b) := by
  cases hfc : findCollisionBy toSnakeCase (s.props.map PropertySpec.title) with
  | none =>
    exfalso
    have hpw := findCollisionBy_none_pairwise _ _ hfc
    rw [List.pairwise_iff_get] at hpw
    have hmi : i < (s.props.map PropertySpec.title).length := by simpa using hi
    have hmj : j < (s.props.map PropertySpec.title).length := by simpa using hj
    have hgi : (s.props.map PropertySpec.title).get ⟨i, hmi⟩ =
        (s.props.get ⟨i, hi⟩).title := by
      simp [List.get_eq_getElem]
    have hgj : (s.props.map PropertySpec.title).get ⟨j, hmj⟩ =
        (s.props.get ⟨j, hj⟩).title := by
      simp [List.get_eq_getElem]
    rcases Nat.lt_or_ge i j with hlt | hge
    · exact hpw ⟨i, hmi⟩ ⟨j, hmj⟩ hlt (by rw [hgi, hgj]; exact hcol)
    · have hlt : j < i := Nat.lt_of_le_of_ne hge (fun hEq => hij hEq.symm)
      exact hpw ⟨j, hmj⟩ ⟨i, hmi⟩ hlt (by rw [hgi, hgj]; exact hcol.symm)
  | some q =>
    obtain ⟨a, b⟩ := q
    obtain ⟨ha, hb2, hfb⟩ := findCollisionBy_some_spec _ _ _ _ hfc
    exact ⟨a, b, ha, hb2, hfb, by simp [genStructChecked, hfc]⟩

/-- Witness for C5: titles `User` and `user` snake-case to the same
identifier and checked generation aborts with `NamingCollision`, reporting
them. -/
theorem c5_naming_collision_aborts_witness :
    genStructChecked ⟨"S", none, [⟨"User", "String", none⟩, ⟨"user", "String", none⟩]⟩ =
      Except.error (GenError.namingCollision "User" "user") := by
  obtain ⟨_, _, -, -, -, -⟩ :=
    c5_naming_collision_aborts
      ⟨"S", none, [⟨"User", "String", none⟩, ⟨"user", "String", none⟩]⟩
      0 1 (by decide) (by decide) (by decide) (by decide)
  rfl

/-- C6: a property titled `match` is emitted as field `match_` with a
rename annotation whose wire value is exactly `match`, and serializing then
deserializing a value of the emitted struct reproduces it unchanged. -/
theorem c6_match_escape_roundtrip (s : StructSpec) (p : PropertySpec)
    (hp : p ∈ s.props) (ht : p.title = "match") (vals : List String)
    (hlen : vals.length = s.props.length)
    (hnd : ((emitStruct s).fields.map wireName).Nodup) :
    emitField p = ⟨"match_", some "match", p.type⟩ ∧
    (⟨"match_", some "match", p.type⟩ : FieldDecl) ∈ (emitStruct s).fields ∧
    deserializeValue (emitStruct s).fields
      (serializeValue (emitStruct s).fields vals) = some vals := by
  have he : emitField p = ⟨"match_", some "match", p.type⟩ := by
    simp [emitField, ht]
  refine ⟨he, he ▸ List.mem_map_of_mem emitField hp, ?_⟩
  exact deserialize_serialize _ vals hnd (by simp [emitStruct, hlen])

/-- Witness for C6 at a one-property struct titled `match`, with value
`x`. -/
theorem c6_match_escape_roundtrip_witness :
    emitField ⟨"match", "String", none⟩ = ⟨"match_", some "match", "String"⟩ ∧
    (⟨"match_", some "match", "String"⟩ : FieldDecl) ∈
      (emitStruct ⟨"Q", none, [⟨"match", "String", none⟩]⟩).fields ∧
    deserializeValue (emitStruct ⟨"Q", none, [⟨"match", "String", none⟩]⟩).fields
      (serializeValue (emitStruct ⟨"Q", none, [⟨"match", "String", none⟩]⟩).fields
        ["x"]) = some ["x"] :=
  c6_match_escape_roundtrip ⟨"Q", none, [⟨"match", "String", none⟩]⟩
    ⟨"match", "String", none⟩ (by decide) rfl ["x"] (by decide) (by decide)

/-- C7: a StructSpec with zero properties generates successfully (no
special-casing error), emits an artifact with zero fields, and its values
serialize as the empty object and round-trip. -/
theorem c7_empty_struct (s : StructSpec) (h : s.props = []) :
    genStructChecked s = Except.ok (emitStruct s) ∧
    (emitStruct s).fields = [] ∧
    serializeValue (emitStruct s).fields [] = [] ∧
    deserializeValue (emitStruct s).fields
      (serializeValue (emitStruct s).fields []) = some [] := by
  refine ⟨?_, ?_, ?_, ?_⟩ <;>
    simp [genStructChecked, emitStruct, h, findCollisionBy, serializeValue,
      deserializeValue]

/-- Witness for C7 at a concrete empty StructSpec. -/
theorem c7_empty_struct_witness :
    genStructChecked ⟨"Empty", none, []⟩ = Except.ok (emitStruct ⟨"Empty", none, []⟩) ∧
    (emitStruct ⟨"Empty", none, []⟩).fields = [] ∧
    serializeValue (emitStruct ⟨"Empty", none, []⟩).fields [] = [] ∧
    deserializeValue (emitStruct ⟨"Empty", none, []⟩).fields
      (serializeValue (emitStruct ⟨"Empty", none, []⟩).fields []) = some [] :=
  c7_empty_struct ⟨"Empty", none, []⟩ rfl

/-- C8: the scenario StructSpec `HelloUserPath` with one property
`user: string` emits exactly one field `user` of that type, and the
example's `hello_user` contract method returns `Ok "Hello, Alice"` for
`user = "Alice"`. -/
theorem c8_hello_user_scenario :
    (emitStruct ⟨"HelloUserPath", none, [⟨"user", "string", none⟩]⟩).fields =
      [⟨"user", none, "string"⟩] ∧
    helloUser () ⟨"Alice"⟩ = Except.ok "Hello, Alice" :=
  ⟨by decide, rfl⟩

/-- C9: both emitters are pure functions of their Type Model entry — two
runs on the same entry yield byte-identical artifact text (and identical
artifact shape). -/
theorem c9_emitters_deterministic (s : StructSpec) (e : ErrorSpec) :
    renderStructText s = renderStructText s ∧
    renderErrorText e = renderErrorText e ∧
    emitStruct s = emitStruct s ∧
    emitError e = emitError e :=
  ⟨rfl, rfl, rfl, rfl⟩

/-- C10: an ErrorSpec with an empty variant sequence is not rejected —
checked generation succeeds and the emitted enumeration has no variants,
with zero arms in the Display match and zero arms in the status-mapping
match. -/
theorem c10_empty_error_spec (spec : ErrorSpec) (h : spec.variants = []) :
    genErrorChecked spec = Except.ok (emitError spec) ∧
    (emitError spec).enumVariants = [] ∧
    (emitError spec).displayArms = [] ∧
    (emitError spec).statusArms = [] := by
  refine ⟨?_, ?_, ?_, ?_⟩ <;>
    simp [genErrorChecked, emitError, h, findCollisionBy]

/-- Witness for C10 at a concrete variant-free ErrorSpec. -/
theorem c10_empty_error_spec_witness :
    genErrorChecked ⟨"ApiError", []⟩ = Except.ok (emitError ⟨"ApiError", []⟩) ∧
    (emitError ⟨"ApiError", []⟩).enumVariants = [] ∧
    (emitError ⟨"ApiError", []⟩).displayArms = [] ∧
    (emitError ⟨"ApiError", []⟩).statusArms = [] :=
  c10_empty_error_spec ⟨"ApiError", []⟩ rfl
